import Mathlib

/-!
Verification development for the BOT-Server-Lite violation engine
(`src/SqlWrapper.c`, `src/Geo-Fencing.c`).

Each C function relevant to a claim is shallowly embedded as an executable
Lean function.  Database round-trips and other external effects that the C
code observes only through status codes (`PQexec` result status, connection
acquisition) are passed in as explicit boolean oracles, so each embedded
function is a pure function of its inputs and those oracles, and the control
flow of the C body is reproduced branch by branch.
-/

/-- Error codes of the BeDIS code base (`ErrorCode` in the C headers),
restricted to the members this file needs. -/
inductive ErrorCode where
  | WORK_SUCCESSFULLY
  | E_MALLOC
  | E_OPEN_FILE
  | E_SQL_OPEN_DATABASE
  | E_SQL_EXECUTE
  | E_SQL_PARSE
  | E_API_PROTOCOL_FORMAT
  | E_INPUT_PARAMETER
  deriving DecidableEq, Repr

/-- Embedding of `SQL_execute` (SqlWrapper.c:47-68): runs one statement via
`PQexec`; the oracle `command_ok` is `PQresultStatus(res) == PGRES_COMMAND_OK`.
Returns `E_SQL_EXECUTE` on failure, `WORK_SUCCESSFULLY` otherwise. -/
def SQL_execute (command_ok : Bool) : ErrorCode :=
  if command_ok then ErrorCode.WORK_SUCCESSFULLY else ErrorCode.E_SQL_EXECUTE

/-- Embedding of `SQL_begin_transaction` (SqlWrapper.c:70-82): executes
`BEGIN TRANSACTION;`, stores the result into `ret_val`, and then returns
the constant `WORK_SUCCESSFULLY` (the C body ends in
`return WORK_SUCCESSFULLY;`, not `return ret_val;`). -/
def SQL_begin_transaction (command_ok : Bool) : ErrorCode :=
  let _ret_val := SQL_execute command_ok
  ErrorCode.WORK_SUCCESSFULLY

/-- Embedding of `SQL_commit_transaction` (SqlWrapper.c:84-96): executes
`END TRANSACTION;` and returns the constant `WORK_SUCCESSFULLY`. -/
def SQL_commit_transaction (command_ok : Bool) : ErrorCode :=
  let _ret_val := SQL_execute command_ok
  ErrorCode.WORK_SUCCESSFULLY

/-- Embedding of `SQL_rollback_transaction` (SqlWrapper.c:98-110): executes
`ROLLBACK;` and returns the constant `WORK_SUCCESSFULLY`. -/
def SQL_rollback_transaction (command_ok : Bool) : ErrorCode :=
  let _ret_val := SQL_execute command_ok
  ErrorCode.WORK_SUCCESSFULLY

/-- C10: each transaction helper returns `WORK_SUCCESSFULLY` for every
outcome of the underlying `SQL_execute`, even though `SQL_execute` itself
reports `E_SQL_EXECUTE` on a failed statement; a caller can never observe a
failed `BEGIN`/`END`/`ROLLBACK` through the helpers' return values. -/
theorem C10_transaction_helpers_ignore_failure :
    (∀ command_ok : Bool,
      SQL_begin_transaction command_ok = ErrorCode.WORK_SUCCESSFULLY ∧
      SQL_commit_transaction command_ok = ErrorCode.WORK_SUCCESSFULLY ∧
      SQL_rollback_transaction command_ok = ErrorCode.WORK_SUCCESSFULLY) ∧
    SQL_execute false = ErrorCode.E_SQL_EXECUTE := by
  refine ⟨fun command_ok => ⟨rfl, rfl, rfl⟩, rfl⟩

/-- The `isspace` character class of C, as used by `atoi` when skipping
leading whitespace. -/
def c_isspace (c : Char) : Bool :=
  c == ' ' || c == '\t' || c == '\n' || c == '\x0b' || c == '\x0c' || c == '\r'

/-- Digit-accumulation loop of C `atoi`: consume decimal digits, stopping at
the first non-digit character. -/
def atoiLoop : List Char → Int → Int
  | [], acc => acc
  | c :: cs, acc =>
      if 48 ≤ c.toNat ∧ c.toNat ≤ 57 then
        atoiLoop cs (acc * 10 + ((c.toNat : Int) - 48))
      else acc

/-- C `atoi`: skip leading whitespace, read an optional sign, then decimal
digits up to the first non-digit; an input with no leading digits yields 0. -/
def atoi (s : String) : Int :=
  let cs := s.data.dropWhile c_isspace
  if cs.head? = some '-' then - atoiLoop (cs.drop 1) 0
  else if cs.head? = some '+' then atoiLoop (cs.drop 1) 0
  else atoiLoop cs 0

/-- `INDEX_OF_COORDINATE_X_IN_UUID` (SqlWrapper.c:549). -/
def INDEX_OF_COORDINATE_X_IN_UUID : Nat := 12

/-- `INDEX_OF_COORDINATE_Y_IN_UUID` (SqlWrapper.c:550). -/
def INDEX_OF_COORDINATE_Y_IN_UUID : Nat := 24

/-- `LENGTH_OF_COORDINATE_IN_UUID` (SqlWrapper.c:551). -/
def LENGTH_OF_COORDINATE_IN_UUID : Nat := 8

/-- The window of `LENGTH_OF_COORDINATE_IN_UUID` characters that
`strncpy(dest, &str_uuid[idx], 8)` copies out of the UUID
(SqlWrapper.c:588-593); the destination buffer was zeroed, so the copy is
exactly these characters (fewer if the string ends first). -/
def coordinate_slice (uuid : String) (idx : Nat) : List Char :=
  (uuid.data.drop idx).take LENGTH_OF_COORDINATE_IN_UUID

/-- `int_coordinate_x = atoi(coordinate_x)` (SqlWrapper.c:595). -/
def int_coordinate_x (uuid : String) : Int :=
  atoi (String.mk (coordinate_slice uuid INDEX_OF_COORDINATE_X_IN_UUID))

/-- `int_coordinate_y = atoi(coordinate_y)` (SqlWrapper.c:596). -/
def int_coordinate_y (uuid : String) : Int :=
  atoi (String.mk (coordinate_slice uuid INDEX_OF_COORDINATE_Y_IN_UUID))

/-- The decimal integer denoted by a string of digit characters
(most significant digit first) — the specification-side reading of an
8-digit decimal coordinate field. -/
def decimal_value (cs : List Char) : Nat :=
  cs.foldl (fun acc c => acc * 10 + (c.toNat - 48)) 0

theorem atoiLoop_digits (cs : List Char)
    (h : ∀ c ∈ cs, 48 ≤ c.toNat ∧ c.toNat ≤ 57) :
    ∀ n : Nat, atoiLoop cs ((n : Int)) =
      ((cs.foldl (fun acc c => acc * 10 + (c.toNat - 48)) n : Nat) : Int) := by
  induction cs with
  | nil => intro n; rfl
  | cons c cs ih =>
      intro n
      have hc := h c (List.mem_cons_self c cs)
      have hrest : ∀ x ∈ cs, 48 ≤ x.toNat ∧ x.toNat ≤ 57 :=
        fun x hx => h x (List.mem_cons_of_mem c hx)
      have hstep : ((n : Int)) * 10 + ((c.toNat : Int) - 48) =
          ((n * 10 + (c.toNat - 48) : Nat) : Int) := by
        omega
      simp only [atoiLoop, List.foldl_cons]
      rw [if_pos hc, hstep, ih hrest]

theorem atoi_all_digits (cs : List Char) (hne : cs ≠ [])
    (h : ∀ c ∈ cs, 48 ≤ c.toNat ∧ c.toNat ≤ 57) :
    atoi (String.mk cs) = ((decimal_value cs : Nat) : Int) := by
  cases cs with
  | nil => exact absurd rfl hne
  | cons c rest =>
      have hc := h c (List.mem_cons_self c rest)
      have hcs : c_isspace c = false := by
        rcases Bool.eq_false_or_eq_true (c_isspace c) with hb | hb
        · exfalso
          simp only [c_isspace, Bool.or_eq_true, beq_iff_eq] at hb
          rcases hb with ((((hb | hb) | hb) | hb) | hb) | hb <;>
            (subst hb; exact absurd hc (by decide))
        · exact hb
      have hdrop : (c :: rest).dropWhile c_isspace = c :: rest := by
        simp [List.dropWhile_cons, hcs]
      have hminus : ¬ ((c :: rest).head? = some '-') := by
        simp only [List.head?_cons, Option.some.injEq]
        intro heq; subst heq; exact absurd hc (by decide)
      have hplus : ¬ ((c :: rest).head? = some '+') := by
        simp only [List.head?_cons, Option.some.injEq]
        intro heq; subst heq; exact absurd hc (by decide)
      show atoi (String.mk (c :: rest)) = _
      unfold atoi
      simp only [String.data, hdrop]
      rw [if_neg hminus, if_neg hplus]
      have := atoiLoop_digits (c :: rest) h 0
      simpa [decimal_value] using this

theorem coordinate_slice_ne_nil (uuid : String) (idx : Nat)
    (hidx : idx + 1 ≤ uuid.length) :
    coordinate_slice uuid idx ≠ [] := by
  have hdata : uuid.length = uuid.data.length := rfl
  apply List.ne_nil_of_length_pos
  simp only [coordinate_slice, List.length_take, List.length_drop,
    LENGTH_OF_COORDINATE_IN_UUID]
  omega

/-- C7: for every beacon UUID of at least 32 characters whose coordinate
fields are decimal digits, `int_coordinate_x` is the decimal integer denoted
by characters [12..20) of the UUID and `int_coordinate_y` the one denoted by
characters [24..32); in particular the UUID
`0000000000010000123400000000567800000000` yields x = 1234 and y = 5678. -/
theorem C7_uuid_coordinate_extraction (uuid : String)
    (hlen : 32 ≤ uuid.length)
    (hx : ∀ c ∈ coordinate_slice uuid INDEX_OF_COORDINATE_X_IN_UUID,
      48 ≤ c.toNat ∧ c.toNat ≤ 57)
    (hy : ∀ c ∈ coordinate_slice uuid INDEX_OF_COORDINATE_Y_IN_UUID,
      48 ≤ c.toNat ∧ c.toNat ≤ 57) :
    int_coordinate_x uuid =
      ((decimal_value
        (coordinate_slice uuid INDEX_OF_COORDINATE_X_IN_UUID) : Nat) : Int) ∧
    int_coordinate_y uuid =
      ((decimal_value
        (coordinate_slice uuid INDEX_OF_COORDINATE_Y_IN_UUID) : Nat) : Int) ∧
    (uuid = "0000000000010000123400000000567800000000" →
      int_coordinate_x uuid = 1234 ∧ int_coordinate_y uuid = 5678) := by
  refine ⟨?_, ?_, ?_⟩
  · exact atoi_all_digits _
      (coordinate_slice_ne_nil uuid INDEX_OF_COORDINATE_X_IN_UUID (by
        simp only [INDEX_OF_COORDINATE_X_IN_UUID]; omega)) hx
  · exact atoi_all_digits _
      (coordinate_slice_ne_nil uuid INDEX_OF_COORDINATE_Y_IN_UUID (by
        simp only [INDEX_OF_COORDINATE_Y_IN_UUID]; omega)) hy
  · intro heq
    subst heq
    exact ⟨by decide, by decide⟩

theorem C7_uuid_coordinate_extraction_witness :
    32 ≤ ("0000000000010000123400000000567800000000" : String).length ∧
    int_coordinate_x "0000000000010000123400000000567800000000" = 1234 ∧
    int_coordinate_y "0000000000010000123400000000567800000000" = 5678 := by
  refine ⟨by decide, ?_⟩
  exact (C7_uuid_coordinate_extraction
    "0000000000010000123400000000567800000000"
    (by decide) (by decide) (by decide)).2.2 rfl

/-- A pool entry (`DBConnectionNode` in SqlWrapper.h): a serial id, the
in-use flag, and the `PGconn*` handle (represented by an opaque numeric
identifier). -/
structure DBConnectionNode where
  serial_id : Nat
  is_used : Bool
  db : Nat
  deriving DecidableEq, Repr

/-- The connection pool: the intrusive list rooted at
`DBConnectionListHead`, as the list of its nodes in list order. -/
abbrev DBConnectionPool := List DBConnectionNode

/-- One `list_for_each` scan of `SQL_get_database_connection`
(SqlWrapper.c:209-225): find the first node with `is_used == 0`, set its
flag to 1 and return its handle and serial id together with the updated
pool; `none` when every node is in use. -/
def scan_for_free_connection :
    DBConnectionPool → Option (Nat × Nat × DBConnectionPool)
  | [] => none
  | n :: rest =>
      if n.is_used = false then
        some (n.db, n.serial_id, { n with is_used := true } :: rest)
      else
        (scan_for_free_connection rest).map
          (fun r => (r.1, r.2.1, n :: r.2.2))

/-- Embedding of `SQL_get_database_connection` (SqlWrapper.c:196-231): up to
`retry_times` rounds (`SQL_GET_AVAILABLE_CONNECTION_RETRIES` in the C), scan
the pool under the pool mutex for a free node; return
`E_SQL_OPEN_DATABASE` when every round finds no free node.  With no
concurrent mutation the pool is the same in every round. -/
def SQL_get_database_connection :
    Nat → DBConnectionPool → Except ErrorCode (Nat × Nat × DBConnectionPool)
  | 0, _ => .error ErrorCode.E_SQL_OPEN_DATABASE
  | retry_times + 1, pool =>
      match scan_for_free_connection pool with
      | some r => .ok r
      | none => SQL_get_database_connection retry_times pool

/-- Embedding of `SQL_release_database_connection` (SqlWrapper.c:233-258):
walk the pool, clear `is_used` of the first node whose `serial_id` matches,
and return the updated pool; `E_SQL_OPEN_DATABASE` when no node matches. -/
def SQL_release_database_connection :
    DBConnectionPool → Nat → Except ErrorCode DBConnectionPool
  | [], _ => .error ErrorCode.E_SQL_OPEN_DATABASE
  | n :: rest, serial_id =>
      if n.serial_id = serial_id then
        .ok ({ n with is_used := false } :: rest)
      else
        match SQL_release_database_connection rest serial_id with
        | .error e => .error e
        | .ok rest' => .ok (n :: rest')

/-- Number of pool entries whose in-use flag is set. -/
def count_in_use (pool : DBConnectionPool) : Nat :=
  (pool.filter (fun n => n.is_used)).length

/-- Number of pool entries whose in-use flag is clear. -/
def count_free (pool : DBConnectionPool) : Nat :=
  (pool.filter (fun n => !n.is_used)).length

theorem count_in_use_add_count_free (pool : DBConnectionPool) :
    count_in_use pool + count_free pool = pool.length := by
  induction pool with
  | nil => rfl
  | cons n rest ih =>
      cases hn : n.is_used <;>
        simp only [count_in_use, count_free, List.filter_cons, hn,
          Bool.not_true, Bool.not_false, List.length_cons] at * <;>
        simp only [Bool.false_eq_true, if_false, if_true, Bool.true_eq_false,
          List.length_cons, reduceIte] <;>
        omega

theorem scan_for_free_connection_spec (pool : DBConnectionPool)
    (db sid : Nat) (pool' : DBConnectionPool)
    (h : scan_for_free_connection pool = some (db, sid, pool')) :
    ∃ i, ∃ hi : i < pool.length,
      (pool.get ⟨i, hi⟩).is_used = false ∧
      db = (pool.get ⟨i, hi⟩).db ∧
      sid = (pool.get ⟨i, hi⟩).serial_id ∧
      pool' = pool.set i { pool.get ⟨i, hi⟩ with is_used := true } := by
  induction pool generalizing pool' with
  | nil => simp [scan_for_free_connection] at h
  | cons n rest ih =>
      by_cases hn : n.is_used = false
      · rw [scan_for_free_connection, if_pos hn] at h
        obtain ⟨hdb, hsid, hpool⟩ : n.db = db ∧ n.serial_id = sid ∧
            { n with is_used := true } :: rest = pool' := by
          simpa using h
        refine ⟨0, by simp, ?_⟩
        simp [List.get, hn, hdb.symm, hsid.symm, hpool.symm]
      · rw [scan_for_free_connection, if_neg hn] at h
        cases hscan : scan_for_free_connection rest with
        | none => rw [hscan] at h; simp at h
        | some r =>
            rw [hscan] at h
            obtain ⟨rdb, rsid, rrest⟩ := r
            obtain ⟨hdb, hsid, hpool⟩ : rdb = db ∧ rsid = sid ∧
                n :: rrest = pool' := by simpa using h
            obtain ⟨i, hi, hfree, hdb', hsid', hrest'⟩ :=
              ih rrest (hdb ▸ hsid ▸ hscan)
            refine ⟨i + 1, by simpa using Nat.succ_lt_succ hi, ?_⟩
            simp only [List.get_cons_succ, List.set_cons_succ]
        
            exact ⟨hfree, hdb', hsid', by rw [← hpool, hrest']⟩

theorem scan_for_free_connection_none (pool : DBConnectionPool) :
    scan_for_free_connection pool = none ↔
      ∀ n ∈ pool, n.is_used = true := by
  induction pool with
  | nil => simp [scan_for_free_connection]
  | cons n rest ih =>
      by_cases hn : n.is_used = false
      · rw [scan_for_free_connection, if_pos hn]
        simp [hn]
      · have hn' : n.is_used = true := by
          revert hn; cases n.is_used <;> simp
        rw [scan_for_free_connection, if_neg hn]
        simp [hn', Option.map_eq_none, ih]

theorem get_connection_all_used (r : Nat) (pool : DBConnectionPool)
    (hall : scan_for_free_connection pool = none) :
    SQL_get_database_connection r pool =
      .error ErrorCode.E_SQL_OPEN_DATABASE := by
  induction r with
  | zero => rfl
  | succ r ih => rw [SQL_get_database_connection, hall]; exact ih

theorem get_connection_ok_scan (r : Nat) (pool : DBConnectionPool)
    (res : Nat × Nat × DBConnectionPool)
    (h : SQL_get_database_connection r pool = .ok res) :
    scan_for_free_connection pool = some res := by
  induction r with
  | zero => simp [SQL_get_database_connection] at h
  | succ r ih =>
      rw [SQL_get_database_connection] at h
      split at h
      next x heq =>
        rw [heq]
        simpa using h
      next heq => exact ih h

theorem release_connection_spec (pool : DBConnectionPool) (sid : Nat)
    (pool' : DBConnectionPool)
    (h : SQL_release_database_connection pool sid = .ok pool') :
    ∃ i, ∃ hi : i < pool.length,
      (pool.get ⟨i, hi⟩).serial_id = sid ∧
      pool' = pool.set i { pool.get ⟨i, hi⟩ with is_used := false } := by
  induction pool generalizing pool' with
  | nil => simp [SQL_release_database_connection] at h
  | cons n rest ih =>
      by_cases hn : n.serial_id = sid
      · rw [SQL_release_database_connection, if_pos hn] at h
        have hpool : { n with is_used := false } :: rest = pool' := by
          simpa using h
        refine ⟨0, by simp, ?_⟩
        simp [List.get, hn, hpool.symm]
      · rw [SQL_release_database_connection, if_neg hn] at h
        cases hrel : SQL_release_database_connection rest sid with
        | error e => rw [hrel] at h; simp at h
        | ok rest' =>
            rw [hrel] at h
            have hpool : n :: rest' = pool' := by simpa using h
            obtain ⟨i, hi, hsid, hrest'⟩ := ih rest' hrel
            refine ⟨i + 1, by simpa using Nat.succ_lt_succ hi, ?_⟩
            simp only [List.get_cons_succ, List.set_cons_succ]
            exact ⟨hsid, by rw [← hpool, hrest']⟩

/-- C8: the connection pool preserves `#in_use + #free == pool_size` at
every quiescent point; a successful acquire marks exactly one previously
free entry in-use and returns its handle and serial id; with at least one
retry round, acquire fails (after its bounded retry count) exactly when no
entry is free; a successful release marks exactly the first entry carrying
the requested serial id free and changes nothing else. -/
theorem C8_connection_pool_acquire_release (pool : DBConnectionPool) :
    (count_in_use pool + count_free pool = pool.length) ∧
    (∀ retry_times db serial_id pool',
      SQL_get_database_connection retry_times pool =
          .ok (db, serial_id, pool') →
      ∃ i, ∃ hi : i < pool.length,
        (pool.get ⟨i, hi⟩).is_used = false ∧
        db = (pool.get ⟨i, hi⟩).db ∧
        serial_id = (pool.get ⟨i, hi⟩).serial_id ∧
        pool' = pool.set i { pool.get ⟨i, hi⟩ with is_used := true }) ∧
    (∀ retry_times, 1 ≤ retry_times →
      (SQL_get_database_connection retry_times pool =
          .error ErrorCode.E_SQL_OPEN_DATABASE ↔
        ∀ n ∈ pool, n.is_used = true)) ∧
    (∀ serial_id pool',
      SQL_release_database_connection pool serial_id = .ok pool' →
      ∃ i, ∃ hi : i < pool.length,
        (pool.get ⟨i, hi⟩).serial_id = serial_id ∧
        pool' = pool.set i { pool.get ⟨i, hi⟩ with is_used := false }) := by
  refine ⟨count_in_use_add_count_free pool, ?_, ?_, ?_⟩
  · intro retry_times db serial_id pool' h
    exact scan_for_free_connection_spec pool db serial_id pool'
      (get_connection_ok_scan retry_times pool _ h)
  · intro retry_times h1
    constructor
    · intro herr
      rw [← scan_for_free_connection_none]
      cases hscan : scan_for_free_connection pool with
      | none => rfl
      | some r =>
          obtain ⟨r', hr⟩ : ∃ r', retry_times = r' + 1 :=
            ⟨retry_times - 1, by omega⟩
          rw [hr, SQL_get_database_connection, hscan] at herr
          simp at herr
    · intro hall
      exact get_connection_all_used retry_times pool
        (scan_for_free_connection_none pool |>.mpr hall)
  · intro serial_id pool' h
    exact release_connection_spec pool serial_id pool' h

theorem C8_connection_pool_witness :
    (count_in_use [⟨0, true, 100⟩, ⟨1, false, 101⟩] +
        count_free [⟨0, true, 100⟩, ⟨1, false, 101⟩] = 2) ∧
    (∃ i, ∃ hi : i < ([⟨0, true, 100⟩, ⟨1, false, 101⟩] :
        DBConnectionPool).length,
      (([⟨0, true, 100⟩, ⟨1, false, 101⟩] :
          DBConnectionPool).get ⟨i, hi⟩).is_used = false ∧
      101 = (([⟨0, true, 100⟩, ⟨1, false, 101⟩] :
          DBConnectionPool).get ⟨i, hi⟩).db ∧
      1 = (([⟨0, true, 100⟩, ⟨1, false, 101⟩] :
          DBConnectionPool).get ⟨i, hi⟩).serial_id ∧
      [⟨0, true, 100⟩, ⟨1, true, 101⟩] =
        ([⟨0, true, 100⟩, ⟨1, false, 101⟩] : DBConnectionPool).set i
          { ([⟨0, true, 100⟩, ⟨1, false, 101⟩] :
              DBConnectionPool).get ⟨i, hi⟩ with is_used := true }) ∧
    (SQL_get_database_connection 5 [⟨0, true, 100⟩] =
      .error ErrorCode.E_SQL_OPEN_DATABASE) ∧
    (∃ i, ∃ hi : i < ([⟨0, true, 100⟩, ⟨1, true, 101⟩] :
        DBConnectionPool).length,
      (([⟨0, true, 100⟩, ⟨1, true, 101⟩] :
          DBConnectionPool).get ⟨i, hi⟩).serial_id = 1 ∧
      [⟨0, true, 100⟩, ⟨1, false, 101⟩] =
        ([⟨0, true, 100⟩, ⟨1, true, 101⟩] : DBConnectionPool).set i
          { ([⟨0, true, 100⟩, ⟨1, true, 101⟩] :
              DBConnectionPool).get ⟨i, hi⟩ with is_used := false }) := by
  refine ⟨(C8_connection_pool_acquire_release
      [⟨0, true, 100⟩, ⟨1, false, 101⟩]).1,
    (C8_connection_pool_acquire_release
      [⟨0, true, 100⟩, ⟨1, false, 101⟩]).2.1 3 101 1
      [⟨0, true, 100⟩, ⟨1, true, 101⟩] rfl,
    ((C8_connection_pool_acquire_release [⟨0, true, 100⟩]).2.2.1 5
      (by decide)).mpr (by decide),
    (C8_connection_pool_acquire_release
      [⟨0, true, 100⟩, ⟨1, true, 101⟩]).2.2.2 1
      [⟨0, true, 100⟩, ⟨1, false, 101⟩] rfl⟩

/-- A row of `lbeacon_table`, with the columns touched by the registration
upsert of `SQL_update_lbeacon_registration_status` (SqlWrapper.c:514-534).
Timestamps are epoch seconds. -/
structure LBeaconRow where
  uuid : String
  ip_address : String
  health_status : Nat
  gateway_ip_address : String
  registered_timestamp : Int
  last_report_timestamp : Int
  coordinate_x : Int
  coordinate_y : Int
  deriving DecidableEq, Repr

/-- The per-beacon upsert issued by `SQL_update_lbeacon_registration_status`
(SqlWrapper.c:514-534): `INSERT INTO lbeacon_table ... ON CONFLICT (uuid)
DO UPDATE SET ip_address, health_status, gateway_ip_address,
last_report_timestamp = NOW(), coordinate_x, coordinate_y`.  The conflict
branch does not touch `registered_timestamp`.  `now` is the value of
`NOW()` when the statement runs. -/
def lbeacon_registration_upsert (table : List LBeaconRow) (uuid ip : String)
    (health : Nat) (gateway_ip : String) (registered : Int) (cx cy : Int)
    (now : Int) : List LBeaconRow :=
  if table.any (fun r => r.uuid == uuid) then
    table.map (fun r =>
      if r.uuid == uuid then
        { r with
          ip_address := ip,
          health_status := health,
          gateway_ip_address := gateway_ip,
          last_report_timestamp := now,
          coordinate_x := cx,
          coordinate_y := cy }
      else r)
  else
    table ++ [⟨uuid, ip, health, gateway_ip, registered, now, cx, cy⟩]

theorem lbeacon_upsert_count (table : List LBeaconRow) (uuid ip : String)
    (health : Nat) (gateway_ip : String) (registered : Int) (cx cy : Int)
    (now : Int) :
    ((lbeacon_registration_upsert table uuid ip health gateway_ip registered
        cx cy now).filter (fun r => r.uuid == uuid)).length =
      max (table.filter (fun r => r.uuid == uuid)).length 1 := by
  by_cases hmem : table.any (fun r => r.uuid == uuid)
  · rw [lbeacon_registration_upsert, if_pos hmem]
    have hlen : ∀ t : List LBeaconRow,
        ((t.map (fun r =>
          if r.uuid == uuid then
            { r with
              ip_address := ip,
              health_status := health,
              gateway_ip_address := gateway_ip,
              last_report_timestamp := now,
              coordinate_x := cx,
              coordinate_y := cy }
          else r)).filter (fun r => r.uuid == uuid)).length =
        (t.filter (fun r => r.uuid == uuid)).length := by
      intro t
      induction t with
      | nil => rfl
      | cons r rest ih =>
          by_cases hr : r.uuid == uuid
          · simp only [List.map_cons, List.filter_cons, hr, if_pos hr]
            simp only [show ({ r with
                ip_address := ip,
                health_status := health,
                gateway_ip_address := gateway_ip,
                last_report_timestamp := now,
                coordinate_x := cx,
                coordinate_y := cy } : LBeaconRow).uuid == uuid from hr,
              if_true, List.length_cons, ih]
          · have hr' : (r.uuid == uuid) = false := by
              revert hr; cases r.uuid == uuid <;> simp
            simp only [List.map_cons, List.filter_cons, hr', if_neg, ih,
              Bool.false_eq_true, if_false]
      
    rw [hlen]
    have hpos : 0 < (table.filter (fun r => r.uuid == uuid)).length := by
      rcases List.any_eq_true.mp hmem with ⟨r, hr, hru⟩
      exact List.length_pos.mpr
        (List.ne_nil_of_mem (List.mem_filter.mpr ⟨hr, hru⟩))
    omega
  · have hmem' : table.any (fun r => r.uuid == uuid) = false := by
      revert hmem; cases table.any (fun r => r.uuid == uuid) <;> simp
    rw [lbeacon_registration_upsert, if_neg hmem]
    have hempty : (table.filter (fun r => r.uuid == uuid)) = [] := by
      rw [List.filter_eq_nil_iff]
      intro r hr
      have := List.any_eq_false.mp hmem' r hr
      simpa using this
    rw [List.filter_append, hempty]
    simp

theorem find_map_preserving_uuid (t : List LBeaconRow) (uuid : String)
    (f : LBeaconRow → LBeaconRow) (hf : ∀ r, (f r).uuid = r.uuid) :
    (t.map f).find? (fun r => r.uuid == uuid) =
      (t.find? (fun r => r.uuid == uuid)).map f := by
  induction t with
  | nil => rfl
  | cons r rest ih =>
      by_cases hr : (r.uuid == uuid) = true
      · have hfr : ((f r).uuid == uuid) = true := by rw [hf]; exact hr
        simp [List.find?_cons, hr, hfr]
      · have hr' : (r.uuid == uuid) = false := by
          revert hr; cases r.uuid == uuid <;> simp
        have hfr' : ((f r).uuid == uuid) = false := by rw [hf]; exact hr'
        simp [List.find?_cons, hr', hfr', ih]

theorem lbeacon_upsert_find (table : List LBeaconRow) (uuid ip : String)
    (health : Nat) (gateway_ip : String) (registered : Int) (cx cy : Int)
    (now : Int) :
    ∃ r, (lbeacon_registration_upsert table uuid ip health gateway_ip
        registered cx cy now).find? (fun r => r.uuid == uuid) = some r ∧
      r.uuid = uuid ∧ r.ip_address = ip ∧ r.health_status = health ∧
      r.gateway_ip_address = gateway_ip ∧ r.last_report_timestamp = now ∧
      r.coordinate_x = cx ∧ r.coordinate_y = cy := by
  by_cases hmem : table.any (fun r => r.uuid == uuid)
  · rw [lbeacon_registration_upsert, if_pos hmem]
    have hsome : (table.find? (fun r => r.uuid == uuid)).isSome := by
      rw [List.find?_isSome]
      exact List.any_eq_true.mp hmem
    obtain ⟨r0, hr0⟩ := Option.isSome_iff_exists.mp hsome
    have hr0u : r0.uuid = uuid := by simpa using List.find?_some hr0
    have hr0p : (r0.uuid == uuid) = true := by simp [hr0u]
    rw [find_map_preserving_uuid table uuid _
      (fun r => by by_cases h : (r.uuid == uuid) = true <;> simp [h]), hr0]
    refine ⟨_, rfl, ?_⟩
    simp [hr0p, hr0u]
  · rw [lbeacon_registration_upsert, if_neg hmem]
    have hnone : table.find? (fun r => r.uuid == uuid) = none := by
      rw [List.find?_eq_none]
      intro r hr
      have hmem' : table.any (fun r => r.uuid == uuid) = false := by
        revert hmem; cases table.any (fun r => r.uuid == uuid) <;> simp
      simpa using List.any_eq_false.mp hmem' r hr
    rw [List.find?_append, hnone, Option.none_or]
    refine ⟨⟨uuid, ip, health, gateway_ip, registered, now, cx, cy⟩, ?_,
      rfl, rfl, rfl, rfl, rfl, rfl, rfl⟩
    simp [List.find?_cons]

/-- C6: applying the same lbeacon registration payload twice is idempotent
up to the report timestamp: `lbeacon_table` ends with exactly one row for
the uuid, whose `last_report_timestamp` advances (`now1 < now2`) while
`uuid`, `ip_address`, `health_status`, `gateway_ip_address`,
`coordinate_x` and `coordinate_y` are the same after the second call as
after the first. -/
theorem C6_lbeacon_registration_idempotent
    (t0 : List LBeaconRow) (uuid ip : String) (health : Nat)
    (gateway_ip : String) (registered : Int) (cx cy : Int) (now1 now2 : Int)
    (hcount : (t0.filter (fun r => r.uuid == uuid)).length ≤ 1)
    (hadv : now1 < now2) :
    (((lbeacon_registration_upsert
        (lbeacon_registration_upsert t0 uuid ip health gateway_ip registered
          cx cy now1)
        uuid ip health gateway_ip registered cx cy now2).filter
          (fun r => r.uuid == uuid)).length = 1) ∧
    ∃ r1 r2,
      (lbeacon_registration_upsert t0 uuid ip health gateway_ip registered
        cx cy now1).find? (fun r => r.uuid == uuid) = some r1 ∧
      (lbeacon_registration_upsert
        (lbeacon_registration_upsert t0 uuid ip health gateway_ip registered
          cx cy now1)
        uuid ip health gateway_ip registered cx cy now2).find?
          (fun r => r.uuid == uuid) = some r2 ∧
      r2.uuid = r1.uuid ∧ r2.ip_address = r1.ip_address ∧
      r2.health_status = r1.health_status ∧
      r2.gateway_ip_address = r1.gateway_ip_address ∧
      r2.coordinate_x = r1.coordinate_x ∧
      r2.coordinate_y = r1.coordinate_y ∧
      r1.last_report_timestamp = now1 ∧ r2.last_report_timestamp = now2 ∧
      r1.last_report_timestamp < r2.last_report_timestamp := by
  constructor
  · rw [lbeacon_upsert_count, lbeacon_upsert_count]
    omega
  · obtain ⟨r1, hfind1, hu1, hip1, hh1, hg1, hl1, hx1, hy1⟩ :=
      lbeacon_upsert_find t0 uuid ip health gateway_ip registered cx cy now1
    obtain ⟨r2, hfind2, hu2, hip2, hh2, hg2, hl2, hx2, hy2⟩ :=
      lbeacon_upsert_find
        (lbeacon_registration_upsert t0 uuid ip health gateway_ip registered
          cx cy now1)
        uuid ip health gateway_ip registered cx cy now2
    refine ⟨r1, r2, hfind1, hfind2, ?_, ?_, ?_, ?_, ?_, ?_, hl1, hl2, ?_⟩
    · rw [hu1, hu2]
    · rw [hip1, hip2]
    · rw [hh1, hh2]
    · rw [hg1, hg2]
    · rw [hx1, hx2]
    · rw [hy1, hy2]
    · rw [hl1, hl2]; exact hadv

theorem C6_lbeacon_registration_witness :
    ((([] : List LBeaconRow).filter (fun r => r.uuid == "u1")).length ≤ 1) ∧
    (1 : Int) < 2 ∧
    (((lbeacon_registration_upsert
        (lbeacon_registration_upsert [] "u1" "10.0.0.2" 0 "10.0.0.1" 7 12 34
          1)
        "u1" "10.0.0.2" 0 "10.0.0.1" 7 12 34 2).filter
          (fun r => r.uuid == "u1")).length = 1) := by
  refine ⟨by decide, by decide, ?_⟩
  exact (C6_lbeacon_registration_idempotent [] "u1" "10.0.0.2" 0 "10.0.0.1"
    7 12 34 1 2 (by decide) (by decide)).1

/-- A row of `notification_table`: serial id, monitor type, object mac,
beacon uuid, violation timestamp (epoch seconds; its text form is its
decimal rendering), and the processed flag (0/1 as a Bool). -/
structure NotificationRow where
  id : Nat
  monitor_type : Nat
  mac_address : String
  uuid : String
  violation_timestamp : Int
  processed : Bool
  deriving DecidableEq, Repr

/-- The `one_record` line built by `SQL_get_and_update_violation_events`
(SqlWrapper.c:1857-1863): `sprintf(one_record, "%s,%s,%s,%s,%s;", id,
monitor_type, mac_address, uuid, violation_timestamp)` on the text fields
returned by `PQgetvalue`. -/
def recordLine (r : NotificationRow) : List Char :=
  (Nat.repr r.id).data ++ [','] ++ (Nat.repr r.monitor_type).data ++ [','] ++
  r.mac_address.data ++ [','] ++ r.uuid.data ++ [','] ++
  (toString r.violation_timestamp).data ++ [';']

/-- Insertion step of the model of `ORDER BY id ASC`. -/
def insertById (r : NotificationRow) :
    List NotificationRow → List NotificationRow
  | [] => [r]
  | x :: xs => if r.id ≤ x.id then r :: x :: xs else x :: insertById r xs

/-- Model of `ORDER BY id ASC` in the drain's SELECT
(SqlWrapper.c:1794-1800): the rows sorted by ascending id. -/
def sortById (l : List NotificationRow) : List NotificationRow :=
  l.foldr insertById []

/-- The row loop of `SQL_get_and_update_violation_events`
(SqlWrapper.c:1856-1884): for each selected row build `one_record`; when
`buf_len > strlen(buf) + strlen(one_record)` append it to the caller buffer
and issue `UPDATE notification_table SET processed = 1 WHERE id = ...` for
that row; otherwise fall through to the next row (there is no `break`).
Returns the final buffer and the list of appended rows. -/
def drain_loop (buf_len : Nat) :
    List NotificationRow → List Char → List Char × List NotificationRow
  | [], buf => (buf, [])
  | r :: rest, buf =>
      let line := recordLine r
      if buf.length + line.length < buf_len then
        let res := drain_loop buf_len rest (buf ++ line)
        (res.1, r :: res.2)
      else
        drain_loop buf_len rest buf

/-- The SELECT plus row loop of `SQL_get_and_update_violation_events`:
unprocessed rows ordered by id, drained into an initially empty buffer of
capacity `buf_len`. -/
def drain_result (table : List NotificationRow) (buf_len : Nat) :
    List Char × List NotificationRow :=
  drain_loop buf_len (sortById (table.filter (fun r => !r.processed))) []

/-- Effect on `notification_table` of the per-row
`UPDATE ... SET processed = 1 WHERE id = %d` statements: every row whose id
is among `ids` gets its processed flag set. -/
def updateProcessed (table : List NotificationRow) (ids : List Nat) :
    List NotificationRow :=
  table.map (fun r =>
    if ids.contains r.id then { r with processed := true } else r)

/-- Embedding of `SQL_get_and_update_violation_events`
(SqlWrapper.c:1784-1893): returns the filled caller buffer and the
resulting `notification_table`. -/
def SQL_get_and_update_violation_events (table : List NotificationRow)
    (buf_len : Nat) : List Char × List NotificationRow :=
  let res := drain_result table buf_len
  (res.1, updateProcessed table (res.2.map (fun r => r.id)))

/-- Concatenation of the record lines of a list of rows. -/
def concatLines (rs : List NotificationRow) : List Char :=
  rs.foldr (fun r acc => recordLine r ++ acc) []

/-- The truncation behaviour asserted by claim C3 (spec §6, "Truncation is
a silent stop at buffer capacity"): in the visiting order, once one row is
not appended, no later row is appended either. -/
def stops_at_first_nonfit (buf_len : Nat)
    (table : List NotificationRow) : Prop :=
  ∀ i j, ∀ hi : i < (sortById (table.filter (fun r => !r.processed))).length,
    ∀ hj : j < (sortById (table.filter (fun r => !r.processed))).length,
    i ≤ j →
    (sortById (table.filter (fun r => !r.processed))).get ⟨i, hi⟩ ∉
      (drain_result table buf_len).2 →
    (sortById (table.filter (fun r => !r.processed))).get ⟨j, hj⟩ ∉
      (drain_result table buf_len).2

theorem drain_loop_sublist (buf_len : Nat) (rows : List NotificationRow)
    (buf : List Char) :
    (drain_loop buf_len rows buf).2.Sublist rows := by
  induction rows generalizing buf with
  | nil => exact List.Sublist.refl []
  | cons r rest ih =>
      rw [drain_loop]
      by_cases hfit : buf.length + (recordLine r).length < buf_len
      · rw [if_pos hfit]
        exact List.Sublist.cons₂ r (ih (buf ++ recordLine r))
      · rw [if_neg hfit]
        exact List.Sublist.cons r (ih buf)

theorem drain_loop_buf (buf_len : Nat) (rows : List NotificationRow)
    (buf : List Char) :
    (drain_loop buf_len rows buf).1 =
      buf ++ concatLines (drain_loop buf_len rows buf).2 := by
  induction rows generalizing buf with
  | nil => simp [drain_loop, concatLines]
  | cons r rest ih =>
      rw [drain_loop]
      by_cases hfit : buf.length + (recordLine r).length < buf_len
      · rw [if_pos hfit]
        simp only [concatLines, List.foldr_cons]
        rw [ih (buf ++ recordLine r), List.append_assoc]
        rfl
      · rw [if_neg hfit]
        exact ih buf

theorem drain_loop_bound (buf_len : Nat) (rows : List NotificationRow)
    (buf : List Char) :
    (drain_loop buf_len rows buf).1.length < buf_len ∨
      (drain_loop buf_len rows buf).1 = buf := by
  induction rows generalizing buf with
  | nil => right; rfl
  | cons r rest ih =>
      rw [drain_loop]
      by_cases hfit : buf.length + (recordLine r).length < buf_len
      · rw [if_pos hfit]
        rcases ih (buf ++ recordLine r) with h | h
        · left; exact h
        · left
          simp only [h, List.length_append]
          exact hfit
      · rw [if_neg hfit]
        exact ih buf

theorem mem_insertById (a r : NotificationRow) (l : List NotificationRow) :
    a ∈ insertById r l ↔ a = r ∨ a ∈ l := by
  induction l with
  | nil => simp [insertById]
  | cons x xs ih =>
      rw [insertById]
      by_cases h : r.id ≤ x.id
      · rw [if_pos h]
        simp
      · rw [if_neg h]
        simp only [List.mem_cons, ih]
        tauto

theorem insertById_pairwise (r : NotificationRow) (l : List NotificationRow)
    (h : l.Pairwise (fun a b => a.id ≤ b.id)) :
    (insertById r l).Pairwise (fun a b => a.id ≤ b.id) := by
  induction l with
  | nil => simp [insertById]
  | cons x xs ih =>
      rw [insertById]
      rcases List.pairwise_cons.mp h with ⟨hx, hxs⟩
      by_cases hle : r.id ≤ x.id
      · rw [if_pos hle]
        refine List.pairwise_cons.mpr ⟨?_, h⟩
        intro b hb
        rcases List.mem_cons.mp hb with hb | hb
        · rw [hb]; exact hle
        · exact le_trans hle (hx b hb)
      · rw [if_neg hle]
        refine List.pairwise_cons.mpr ⟨?_, ih hxs⟩
        intro b hb
        rcases (mem_insertById b r xs).mp hb with hb | hb
        · rw [hb]; omega
        · exact hx b hb

theorem sortById_pairwise (l : List NotificationRow) :
    (sortById l).Pairwise (fun a b => a.id ≤ b.id) := by
  induction l with
  | nil => exact List.Pairwise.nil
  | cons x xs ih =>
      rw [sortById, List.foldr_cons]
      exact insertById_pairwise x (sortById xs) ih

theorem updateProcessed_mem_self (table : List NotificationRow)
    (ids : List Nat) (r : NotificationRow) (hr : r ∈ table)
    (h : ids.contains r.id = false) :
    r ∈ updateProcessed table ids := by
  rw [updateProcessed]
  refine List.mem_map.mpr ⟨r, hr, ?_⟩
  simp only [h, Bool.false_eq_true, if_false]

/-- C3 (amended): the drain visits unprocessed notifications in ascending
id order; a row's line is appended exactly when it fits the remaining
capacity at its turn (strictly, leaving room for the terminator), and
`processed = 1` is issued exactly for the appended rows; a row that does
not fit is skipped *individually* — the loop carries on, and later shorter
rows may still be appended — and every skipped row stays unprocessed for
the next call.  The buffer ends as the concatenation of the appended lines
and within capacity. -/
theorem C3_drain_appends_fitting_rows (table : List NotificationRow)
    (buf_len : Nat) :
    (drain_result table buf_len).2.Sublist
      (sortById (table.filter (fun r => !r.processed))) ∧
    List.Pairwise (fun a b => a.id ≤ b.id) (drain_result table buf_len).2 ∧
    (drain_result table buf_len).1 =
      concatLines (drain_result table buf_len).2 ∧
    ((drain_result table buf_len).1.length < buf_len ∨
      (drain_result table buf_len).1 = []) ∧
    (∀ r ∈ (drain_result table buf_len).2, r.processed = false) ∧
    (SQL_get_and_update_violation_events table buf_len).1 =
      (drain_result table buf_len).1 ∧
    (∀ r ∈ table, r.processed = false →
      ((drain_result table buf_len).2.map (fun x => x.id)).contains r.id
        = false →
      r ∈ (SQL_get_and_update_violation_events table buf_len).2) := by
  refine ⟨drain_loop_sublist buf_len _ [], ?_, ?_, ?_, ?_, rfl, ?_⟩
  · exact (sortById_pairwise _).sublist (drain_loop_sublist buf_len _ [])
  · simpa using drain_loop_buf buf_len
      (sortById (table.filter (fun r => !r.processed))) []
  · exact drain_loop_bound buf_len _ []
  · intro r hr
    have hmem : r ∈ sortById (table.filter (fun r => !r.processed)) :=
      (drain_loop_sublist buf_len _ []).subset hr
    have hmem2 : r ∈ table.filter (fun r => !r.processed) := by
      have : ∀ l : List NotificationRow, ∀ a, a ∈ sortById l → a ∈ l := by
        intro l
        induction l with
        | nil => intro a ha; exact ha
        | cons x xs ih =>
            intro a ha
            rw [sortById, List.foldr_cons] at ha
            rcases (mem_insertById a x (sortById xs)).mp ha with ha | ha
            · rw [ha]; exact List.mem_cons_self x xs
            · exact List.mem_cons_of_mem x (ih a ha)
      exact this _ r hmem
    have := (List.mem_filter.mp hmem2).2
    simpa using this
  · intro r hr hproc hcontains
    exact updateProcessed_mem_self table _ r hr hcontains

theorem C3_drain_counterexample :
    ¬ stops_at_first_nonfit 15
      [⟨1, 1, "aaaaaaaaaaaaaaaaaaaaaaaaaaaaaa", "u", 0, false⟩,
       ⟨2, 1, "b", "u", 0, false⟩] := by
  intro h
  have h2 := h 0 1 (by decide) (by decide) (by decide) (by decide)
  exact h2 (by decide)

theorem C3_drain_witness :
    (⟨1, 1, "aaaaaaaaaaaaaaaaaaaaaaaaaaaaaa", "u", 0, false⟩ :
      NotificationRow) ∈
      (SQL_get_and_update_violation_events
        [⟨1, 1, "aaaaaaaaaaaaaaaaaaaaaaaaaaaaaa", "u", 0, false⟩,
         ⟨2, 1, "b", "u", 0, false⟩] 15).2 := by
  exact (C3_drain_appends_fitting_rows
    [⟨1, 1, "aaaaaaaaaaaaaaaaaaaaaaaaaaaaaa", "u", 0, false⟩,
     ⟨2, 1, "b", "u", 0, false⟩] 15).2.2.2.2.2.2
    ⟨1, 1, "aaaaaaaaaaaaaaaaaaaaaaaaaaaaaa", "u", 0, false⟩
    (by decide) (by decide) (by decide)

/-- The monitor types accepted by `SQL_collect_violation_events`
(SqlWrapper.c:1723-1740). -/
inductive ObjectMonitorType where
  | MONITOR_GEO_FENCE
  | MONITOR_PANIC
  | MONITOR_MOVEMENT
  | MONITOR_LOCATION
  deriving DecidableEq, Repr

/-- Modelled from the spec: the numeric bit values of the `ObjectMonitorType`
enum (`GEO_FENCE`, `PANIC`, `MOVEMENT`, `LOCATION` are independent monitor
bits per spec §3); the header defining the C enum is not part of `src/`.
The theorems below use only that each type has one fixed value. -/
def monitorTypeVal : ObjectMonitorType → Nat
  | .MONITOR_GEO_FENCE => 1
  | .MONITOR_PANIC => 2
  | .MONITOR_MOVEMENT => 4
  | .MONITOR_LOCATION => 8

/-- A row of `object_summary_table`, restricted to the columns read by
`SQL_collect_violation_events`: the object mac, its current beacon uuid and
the four per-monitor violation timestamps (NULL modelled as `none`). -/
structure ObjectSummaryRow where
  mac_address : String
  uuid : String
  geofence_violation_timestamp : Option Int
  panic_violation_timestamp : Option Int
  movement_violation_timestamp : Option Int
  location_violation_timestamp : Option Int
  deriving DecidableEq, Repr

/-- The violation-timestamp column selected by the `switch (monitor_type)`
of `SQL_collect_violation_events` (SqlWrapper.c:1717-1740). -/
def violation_timestamp_column (mt : ObjectMonitorType)
    (s : ObjectSummaryRow) : Option Int :=
  match mt with
  | .MONITOR_GEO_FENCE => s.geofence_violation_timestamp
  | .MONITOR_PANIC => s.panic_violation_timestamp
  | .MONITOR_MOVEMENT => s.movement_violation_timestamp
  | .MONITOR_LOCATION => s.location_violation_timestamp

/-- The row that the `INSERT INTO notification_table ... SELECT` of
`SQL_collect_violation_events` (SqlWrapper.c:1692-1715) derives from one
`object_summary_table` row, evaluated at time `now` (the value of `NOW()`):
`some` row exactly when the selected violation timestamp is non-NULL,
satisfies `ts >= NOW() - interval 'time_interval_in_sec seconds'`, and
`NOT EXISTS (SELECT * FROM notification_table WHERE monitor_type = %d AND
mac_address = mac_address AND uuid = uuid AND
EXTRACT(EPOCH FROM (ts - violation_timestamp)) < granularity)` holds.
The comparisons `mac_address = mac_address` and `uuid = uuid` compare the
notification row's own columns with themselves (the inner scope wins) and
are kept literally; they hold for every non-NULL row.  Inserted rows carry
`processed = 0`; their serial ids are irrelevant to the claims and are
modelled as 0. -/
def collect_row_for (mt : ObjectMonitorType)
    (now time_interval_in_sec granularity_for_continuous_violations_in_sec :
      Int)
    (notifs : List NotificationRow) (s : ObjectSummaryRow) :
    Option NotificationRow :=
  (violation_timestamp_column mt s).bind (fun ts =>
    if decide (now - time_interval_in_sec ≤ ts) &&
        !(notifs.any (fun n =>
          (n.monitor_type == monitorTypeVal mt) &&
          (n.mac_address == n.mac_address) &&
          (n.uuid == n.uuid) &&
          decide (ts - n.violation_timestamp <
            granularity_for_continuous_violations_in_sec))) then
      some ⟨0, monitorTypeVal mt, s.mac_address, s.uuid, ts, false⟩
    else none)

/-- All rows inserted by the `INSERT ... SELECT`: one per qualifying
summary row. -/
def collect_inserted_rows (mt : ObjectMonitorType)
    (now time_interval_in_sec granularity_for_continuous_violations_in_sec :
      Int)
    (summary : List ObjectSummaryRow) (notifs : List NotificationRow) :
    List NotificationRow :=
  summary.filterMap (collect_row_for mt now time_interval_in_sec
    granularity_for_continuous_violations_in_sec notifs)

/-- Effect of `SQL_collect_violation_events` (SqlWrapper.c:1681-1782) on
`notification_table` when the statement executes successfully: the table
grows by the inserted rows. -/
def SQL_collect_violation_events (mt : ObjectMonitorType)
    (now time_interval_in_sec granularity_for_continuous_violations_in_sec :
      Int)
    (summary : List ObjectSummaryRow) (notifs : List NotificationRow) :
    List NotificationRow :=
  notifs ++ collect_inserted_rows mt now time_interval_in_sec
    granularity_for_continuous_violations_in_sec summary notifs

/-- Minimum-spacing relation of the dedup window: two notifications of
identical (monitor_type, mac, uuid) are at least `g` seconds apart. -/
def dedup_spaced (g : Int) (a b : NotificationRow) : Prop :=
  a.monitor_type = b.monitor_type → a.mac_address = b.mac_address →
  a.uuid = b.uuid → g ≤ |a.violation_timestamp - b.violation_timestamp|

theorem collect_row_for_spec (mt : ObjectMonitorType) (now ti g : Int)
    (notifs : List NotificationRow) (s : ObjectSummaryRow)
    (x : NotificationRow)
    (h : collect_row_for mt now ti g notifs s = some x) :
    ∃ ts, violation_timestamp_column mt s = some ts ∧
      x = ⟨0, monitorTypeVal mt, s.mac_address, s.uuid, ts, false⟩ ∧
      now - ti ≤ ts ∧
      ∀ m ∈ notifs, m.monitor_type = monitorTypeVal mt →
        g ≤ ts - m.violation_timestamp := by
  obtain ⟨ts, hts, hf⟩ := Option.bind_eq_some.mp h
  refine ⟨ts, hts, ?_⟩
  by_cases hcond : (decide (now - ti ≤ ts) &&
      !(notifs.any (fun n =>
        (n.monitor_type == monitorTypeVal mt) &&
        (n.mac_address == n.mac_address) &&
        (n.uuid == n.uuid) &&
        decide (ts - n.violation_timestamp < g)))) = true
  · rw [if_pos hcond] at hf
    obtain ⟨hle, hany⟩ := Bool.and_eq_true_iff.mp hcond
    refine ⟨(Option.some.inj hf).symm, by simpa using hle, ?_⟩
    simpa using hany
  · rw [if_neg hcond] at hf
    exact absurd hf (by simp)

theorem collect_inserted_rows_mem (mt : ObjectMonitorType)
    (now ti g : Int) (summary : List ObjectSummaryRow)
    (notifs : List NotificationRow) (n : NotificationRow)
    (hn : n ∈ collect_inserted_rows mt now ti g summary notifs) :
    ∃ s ∈ summary, ∃ ts, violation_timestamp_column mt s = some ts ∧
      n = ⟨0, monitorTypeVal mt, s.mac_address, s.uuid, ts, false⟩ ∧
      now - ti ≤ ts ∧
      ∀ m ∈ notifs, m.monitor_type = monitorTypeVal mt →
        g ≤ ts - m.violation_timestamp := by
  obtain ⟨s, hs, hf⟩ := List.mem_filterMap.mp hn
  exact ⟨s, hs, collect_row_for_spec mt now ti g notifs s n hf⟩

/-- C1: the `INSERT ... SELECT` of `SQL_collect_violation_events` inserts a
row only for summary rows whose selected violation timestamp lies within
the last `time_interval_in_sec` seconds (`now - ti ≤ ts`) and for which no
existing notification of the same monitor type, mac and uuid has a
violation timestamp within the last
`granularity_for_continuous_violations_in_sec` seconds
(`now - m.ts < g`); consequently, if all violation stamps are in the past,
summary macs are unique and the dedup spacing held before the call, then
after the call no two notifications of identical (monitor_type, mac, uuid)
lie within the dedup window of each other. -/
theorem C1_collect_violation_events_dedup (mt : ObjectMonitorType)
    (now ti g : Int) (summary : List ObjectSummaryRow)
    (notifs : List NotificationRow)
    (hmac : (summary.map (fun s => s.mac_address)).Nodup)
    (hpast : ∀ s ∈ summary, ∀ ts,
      violation_timestamp_column mt s = some ts → ts ≤ now)
    (hg : 0 ≤ g)
    (hpre : notifs.Pairwise (dedup_spaced g)) :
    (∀ n ∈ collect_inserted_rows mt now ti g summary notifs,
      (now - ti ≤ n.violation_timestamp) ∧
      ¬ ∃ m ∈ notifs, m.monitor_type = monitorTypeVal mt ∧
        m.mac_address = n.mac_address ∧ m.uuid = n.uuid ∧
        now - m.violation_timestamp < g) ∧
    (SQL_collect_violation_events mt now ti g summary notifs).Pairwise
      (dedup_spaced g) := by
  constructor
  · intro n hn
    obtain ⟨s, hs, ts, hcol, hneq, hle, hblock⟩ :=
      collect_inserted_rows_mem mt now ti g summary notifs n hn
    have hts : n.violation_timestamp = ts := by rw [hneq]
    refine ⟨by rw [hts]; exact hle, ?_⟩
    rintro ⟨m, hm, hmt, hmac', hmuuid, hwin⟩
    have hspace := hblock m hm hmt
    have htsnow : ts ≤ now := hpast s hs ts hcol
    omega
  · rw [SQL_collect_violation_events, List.pairwise_append]
    refine ⟨hpre, ?_, ?_⟩
    · have hmacpw : summary.Pairwise
          (fun a b => a.mac_address ≠ b.mac_address) := by
        rw [List.Nodup, List.pairwise_map] at hmac
        exact hmac
      unfold collect_inserted_rows
      rw [List.pairwise_filterMap]
      refine hmacpw.imp_of_mem ?_
      intro a b _ _
      intro hab x hx y hy
      obtain ⟨tsa, _, hxa, _, _⟩ := collect_row_for_spec mt now ti g notifs a x hx
      obtain ⟨tsb, _, hyb, _, _⟩ := collect_row_for_spec mt now ti g notifs b y hy
      intro _ hmacxy _
      exfalso
      apply hab
      have h1 : x.mac_address = a.mac_address := by rw [hxa]
      have h2 : y.mac_address = b.mac_address := by rw [hyb]
      rw [← h1, ← h2]
      exact hmacxy
    · intro a ha b hb
      obtain ⟨s, hs, ts, hcol, hneq, hle, hblock⟩ :=
        collect_inserted_rows_mem mt now ti g summary notifs b hb
      intro hamt _ _
      have hbmt : b.monitor_type = monitorTypeVal mt := by rw [hneq]
      have hspace := hblock a ha (by rw [hamt]; exact hbmt)
      have hbts : b.violation_timestamp = ts := by rw [hneq]
      rw [hbts, abs_sub_comm,
        abs_of_nonneg (by omega : (0 : Int) ≤ ts - a.violation_timestamp)]
      omega

theorem C1_collect_violation_events_witness :
    ((100 : Int) - 50 ≤
      (⟨0, 1, "mac1", "u1", 90, false⟩ :
        NotificationRow).violation_timestamp) ∧
    ¬ ∃ m ∈ ([⟨1, 1, "mac1", "u1", 40, false⟩] : List NotificationRow),
      m.monitor_type =
        monitorTypeVal ObjectMonitorType.MONITOR_GEO_FENCE ∧
      m.mac_address =
        (⟨0, 1, "mac1", "u1", 90, false⟩ : NotificationRow).mac_address ∧
      m.uuid = (⟨0, 1, "mac1", "u1", 90, false⟩ : NotificationRow).uuid ∧
      (100 : Int) - m.violation_timestamp < 30 := by
  exact (C1_collect_violation_events_dedup
    ObjectMonitorType.MONITOR_GEO_FENCE 100 50 30
    [⟨"mac1", "u1", some 90, none, none, none⟩]
    [⟨1, 1, "mac1", "u1", 40, false⟩]
    (by decide)
    (by
      intro s hs ts hcol
      rw [List.mem_singleton] at hs
      subst hs
      simp only [violation_timestamp_column, Option.some.injEq] at hcol
      omega)
    (by omega)
    (by simp)).1
    ⟨0, 1, "mac1", "u1", 90, false⟩ (by decide)

/-- The four statements issued by `SQL_summarize_object_location`, in
program order (SqlWrapper.c:1019-1189): the `is_location_updated` reset,
the stable-tag update, the moving-tag update and the base-location
update. -/
inductive SummStmt where
  | reset
  | stable
  | moving
  | base
  deriving DecidableEq, Repr

/-- Observable effects of one `SQL_summarize_object_location` call: its
return value, the statements executed (in order), and whether the acquired
connection was released. -/
structure SummarizeEffects where
  ret_val : ErrorCode
  executed : List SummStmt
  conn_released : Bool
  deriving DecidableEq, Repr

/-- Embedding of `SQL_summarize_object_location` (SqlWrapper.c:1007-1274).
Oracles: `conn_ok` is the connection acquisition (lines 1194-1202);
`reset_ok`, `stable_ok`, `moving_ok`, `base_ok` are the `SQL_execute`
outcomes of the four statements.  The reset's result is assigned to
`ret_val` (line 1204) but never checked, exactly as in the C; the other
three failures release the connection and return `E_SQL_EXECUTE`
(lines 1218-1227, 1237-1246, 1258-1267). -/
def SQL_summarize_object_location
    (conn_ok reset_ok stable_ok moving_ok base_ok : Bool) :
    SummarizeEffects :=
  if conn_ok = false then
    ⟨ErrorCode.E_SQL_OPEN_DATABASE, [], false⟩
  else
    let _ret_val := SQL_execute reset_ok
    if stable_ok = false then
      ⟨ErrorCode.E_SQL_EXECUTE, [SummStmt.reset, SummStmt.stable], true⟩
    else if moving_ok = false then
      ⟨ErrorCode.E_SQL_EXECUTE,
        [SummStmt.reset, SummStmt.stable, SummStmt.moving], true⟩
    else if base_ok = false then
      ⟨ErrorCode.E_SQL_EXECUTE,
        [SummStmt.reset, SummStmt.stable, SummStmt.moving, SummStmt.base],
        true⟩
    else
      ⟨ErrorCode.WORK_SUCCESSFULLY,
        [SummStmt.reset, SummStmt.stable, SummStmt.moving, SummStmt.base],
        true⟩

theorem C5_summarize_counterexample :
    (SQL_summarize_object_location true false true true true).ret_val =
      ErrorCode.WORK_SUCCESSFULLY ∧
    SQL_execute false = ErrorCode.E_SQL_EXECUTE := ⟨rfl, rfl⟩

/-- C5 (amended): the statements run in order reset → stable → moving →
base under one acquired connection, and a failure of the stable, moving or
base statement releases the connection and returns `E_SQL_EXECUTE` without
executing the remaining statements; the result of the initial reset
statement, however, is assigned but never checked, so the function's result
is independent of the reset outcome and it returns `WORK_SUCCESSFULLY`
exactly when the stable, moving and base statements all succeed — even when
the reset failed. -/
theorem C5_summarize_error_handling :
    ∀ conn_ok reset_ok stable_ok moving_ok base_ok : Bool,
      (∀ r2 : Bool,
        SQL_summarize_object_location conn_ok reset_ok stable_ok moving_ok
          base_ok =
        SQL_summarize_object_location conn_ok r2 stable_ok moving_ok
          base_ok) ∧
      (conn_ok = false →
        SQL_summarize_object_location conn_ok reset_ok stable_ok moving_ok
          base_ok = ⟨ErrorCode.E_SQL_OPEN_DATABASE, [], false⟩) ∧
      (conn_ok = true → stable_ok = false →
        SQL_summarize_object_location conn_ok reset_ok stable_ok moving_ok
          base_ok =
          ⟨ErrorCode.E_SQL_EXECUTE, [SummStmt.reset, SummStmt.stable],
            true⟩) ∧
      (conn_ok = true → stable_ok = true → moving_ok = false →
        SQL_summarize_object_location conn_ok reset_ok stable_ok moving_ok
          base_ok =
          ⟨ErrorCode.E_SQL_EXECUTE,
            [SummStmt.reset, SummStmt.stable, SummStmt.moving], true⟩) ∧
      (conn_ok = true → stable_ok = true → moving_ok = true →
          base_ok = false →
        SQL_summarize_object_location conn_ok reset_ok stable_ok moving_ok
          base_ok =
          ⟨ErrorCode.E_SQL_EXECUTE,
            [SummStmt.reset, SummStmt.stable, SummStmt.moving,
              SummStmt.base], true⟩) ∧
      (conn_ok = true →
        ((SQL_summarize_object_location conn_ok reset_ok stable_ok moving_ok
            base_ok).ret_val = ErrorCode.WORK_SUCCESSFULLY ↔
          stable_ok = true ∧ moving_ok = true ∧ base_ok = true)) ∧
      (conn_ok = true →
        (SQL_summarize_object_location conn_ok reset_ok stable_ok moving_ok
          base_ok).conn_released = true) := by
  intro conn_ok reset_ok stable_ok moving_ok base_ok
  refine ⟨fun r2 => ?_, ?_, ?_, ?_, ?_, ?_, ?_⟩ <;>
    cases conn_ok <;> cases stable_ok <;> cases moving_ok <;>
    cases base_ok <;>
    simp [SQL_summarize_object_location, SQL_execute]

theorem C5_summarize_witness :
    SQL_summarize_object_location true true false true true =
      ⟨ErrorCode.E_SQL_EXECUTE, [SummStmt.reset, SummStmt.stable], true⟩ :=
  (C5_summarize_error_handling true true false true true).2.2.1 rfl rfl

/-- One sub-record of a tracking report, as tokenized by
`SQL_update_object_tracking_data_with_battery_voltage`
(SqlWrapper.c:904-951); fields are the raw tokens, `none` standing for a
NULL return of `strtok_save`. -/
structure TrackRecord where
  object_mac_address : String
  initial_timestamp_GMT : String
  final_timestamp_GMT : String
  rssi : String
  panic_button : Option String
  battery_voltage : String
  deriving DecidableEq, Repr

/-- Whether the inline panic stamp (`UPDATE object_summary_table SET
panic_violation_timestamp = NOW() ... WHERE mac_address = %s AND
monitor_type & PANIC != 0`, SqlWrapper.c:848-855) is executed for one
sub-record: the guard is `panic_button != NULL && 1 == atoi(panic_button)`
(line 919) followed by the connection acquisition (lines 922-931; on
failure the record is skipped with `continue`).  The function parameter
`is_enabled_panic_monitoring` (line 803) is never consulted. -/
def record_issues_panic_stamp (is_enabled_panic_monitoring : Bool)
    (panic_conn_ok : Bool) (r : TrackRecord) : Bool :=
  match r.panic_button with
  | none => false
  | some p => if atoi p = 1 then panic_conn_ok else false

/-- The macs for which the tracking-report ingestion issues a panic stamp,
in sub-record order (SqlWrapper.c:904-951). -/
def panic_stamp_macs (is_enabled_panic_monitoring : Bool)
    (panic_conn_ok : Bool) (records : List TrackRecord) : List String :=
  (records.filter
    (record_issues_panic_stamp is_enabled_panic_monitoring panic_conn_ok)).map
    (fun r => r.object_mac_address)

/-- C2: the panic stamp is issued independently of the
`is_enabled_panic_monitoring` feature flag — the parameter is never read —
and in particular a record with `panic == 1` is stamped even when the flag
is false (provided a connection is obtained), contradicting the claim that
no stamp is issued when the flag is false. -/
theorem C2_panic_stamp_ignores_feature_flag :
    (∀ (flag1 flag2 panic_conn_ok : Bool) (records : List TrackRecord),
      panic_stamp_macs flag1 panic_conn_ok records =
        panic_stamp_macs flag2 panic_conn_ok records) ∧
    panic_stamp_macs false true
      [⟨"AA:BB:CC:DD:EE:FF", "1570000000", "1570000010", "-60", some "1",
        "3000"⟩] = ["AA:BB:CC:DD:EE:FF"] := by
  constructor
  · intro flag1 flag2 panic_conn_ok records
    rfl
  · rfl

/-- Accumulator-based scanner behind `tokenize`: `acc` holds the current
token's characters in reverse. -/
def split_semi_aux : List Char → List Char → List String
  | [], [] => []
  | [], acc => [String.mk acc.reverse]
  | c :: cs, acc =>
      if c = ';' then
        match acc with
        | [] => split_semi_aux cs []
        | _ => String.mk acc.reverse :: split_semi_aux cs []
      else
        split_semi_aux cs (c :: acc)

/-- `strtok_save(buf, ";", ...)` tokenization: the non-empty fields of the
buffer split at semicolons (consecutive delimiters collapse, leading and
trailing delimiters are skipped — standard `strtok` behaviour). -/
def tokenize (buf : String) : List String :=
  split_semi_aux buf.data []

/-- The inner `while(numbers--)` record loop of
`SQL_update_object_tracking_data_with_battery_voltage`
(SqlWrapper.c:904-974) viewed through its token consumption: each record
consumes mac, initial, final, rssi and panic tokens; when the panic guard
fires and the connection acquisition fails, `continue` skips the battery
token and the CSV write (lines 922-931); otherwise the battery token is
consumed too.  Exhausted `strtok_save` yields NULL, modelled by dropping
past the end of the token list.  A negative `atoi(object_number)` makes the
C loop run into undefined behaviour (reads of NULL tokens); the model
clamps the count at zero. -/
def consumeRecords (panic_conn_ok : Bool) :
    Nat → List String → List String
  | 0, tokens => tokens
  | numbers + 1, tokens =>
      match tokens[4]? with
      | some p =>
          if atoi p = 1 ∧ panic_conn_ok = false then
            consumeRecords panic_conn_ok numbers (tokens.drop 5)
          else
            consumeRecords panic_conn_ok numbers (tokens.drop 6)
      | none => consumeRecords panic_conn_ok numbers (tokens.drop 6)

/-- The outer `while(num_types--)` loop (SqlWrapper.c:889-975): per type
block read `object_type` and `object_number`; a NULL `object_number`
aborts with protocol-format error (`none`); otherwise consume
`atoi(object_number)` records. -/
def processTypes (panic_conn_ok : Bool) :
    Nat → List String → Option (List String)
  | 0, tokens => some tokens
  | num_types + 1, tokens =>
      match tokens[1]? with
      | none => none
      | some object_number =>
          processTypes panic_conn_ok num_types
            (consumeRecords panic_conn_ok (atoi object_number).toNat
              (tokens.drop 2))

/-- Observable outcome of one
`SQL_update_object_tracking_data_with_battery_voltage` call, restricted to
its return value and the lifecycle of the temporary CSV file
`<install>/temp/track_<thread_id>`: whether the file was created
(`fopen` succeeded) and whether `remove(filename)` ran before return. -/
structure TrackFileEffects where
  ret_val : ErrorCode
  file_created : Bool
  file_removed : Bool
  deriving DecidableEq, Repr

/-- Embedding of `SQL_update_object_tracking_data_with_battery_voltage`
(SqlWrapper.c:798-1005) along its file lifecycle.  Oracles: `fopen_ok`
(line 867-871), `panic_conn_ok` (lines 922-931), `copy_conn_ok`
(lines 981-989) and `copy_exec_ok` (line 992).  The only `remove(filename)`
is at line 998, after the COPY attempt; the parser-failure returns at
lines 879-882 and 898-901 only `fclose` the file, and the
connection-acquisition failure at lines 981-989 returns before the
`remove`. -/
def SQL_update_object_tracking_data_with_battery_voltage (buf : String)
    (fopen_ok panic_conn_ok copy_conn_ok copy_exec_ok : Bool) :
    TrackFileEffects :=
  if fopen_ok = false then
    ⟨ErrorCode.E_OPEN_FILE, false, false⟩
  else if (tokenize buf)[1]? = none then
    ⟨ErrorCode.E_API_PROTOCOL_FORMAT, true, false⟩
  else
    match processTypes panic_conn_ok 2 ((tokenize buf).drop 3) with
    | none => ⟨ErrorCode.E_API_PROTOCOL_FORMAT, true, false⟩
    | some _ =>
        if copy_conn_ok = false then
          ⟨ErrorCode.E_SQL_OPEN_DATABASE, true, false⟩
        else if copy_exec_ok = false then
          ⟨ErrorCode.E_SQL_EXECUTE, true, true⟩
        else
          ⟨ErrorCode.WORK_SUCCESSFULLY, true, true⟩

theorem track_result_cases (buf : String)
    (fopen_ok panic_conn_ok copy_conn_ok copy_exec_ok : Bool) :
    SQL_update_object_tracking_data_with_battery_voltage buf fopen_ok
        panic_conn_ok copy_conn_ok copy_exec_ok =
      ⟨ErrorCode.E_OPEN_FILE, false, false⟩ ∨
    SQL_update_object_tracking_data_with_battery_voltage buf fopen_ok
        panic_conn_ok copy_conn_ok copy_exec_ok =
      ⟨ErrorCode.E_API_PROTOCOL_FORMAT, true, false⟩ ∨
    SQL_update_object_tracking_data_with_battery_voltage buf fopen_ok
        panic_conn_ok copy_conn_ok copy_exec_ok =
      ⟨ErrorCode.E_SQL_OPEN_DATABASE, true, false⟩ ∨
    SQL_update_object_tracking_data_with_battery_voltage buf fopen_ok
        panic_conn_ok copy_conn_ok copy_exec_ok =
      ⟨ErrorCode.E_SQL_EXECUTE, true, true⟩ ∨
    SQL_update_object_tracking_data_with_battery_voltage buf fopen_ok
        panic_conn_ok copy_conn_ok copy_exec_ok =
      ⟨ErrorCode.WORK_SUCCESSFULLY, true, true⟩ := by
  rw [SQL_update_object_tracking_data_with_battery_voltage]
  by_cases h1 : fopen_ok = false
  · rw [if_pos h1]; exact Or.inl rfl
  · rw [if_neg h1]
    by_cases h2 : (tokenize buf)[1]? = none
    · rw [if_pos h2]; exact Or.inr (Or.inl rfl)
    · rw [if_neg h2]
      cases hp : processTypes panic_conn_ok 2 ((tokenize buf).drop 3) with
      | none => exact Or.inr (Or.inl rfl)
      | some rest =>
          by_cases h3 : copy_conn_ok = false
          · rw [if_pos h3]; exact Or.inr (Or.inr (Or.inl rfl))
          · rw [if_neg h3]
            by_cases h4 : copy_exec_ok = false
            · rw [if_pos h4]; exact Or.inr (Or.inr (Or.inr (Or.inl rfl)))
            · rw [if_neg h4]; exact Or.inr (Or.inr (Or.inr (Or.inr rfl)))

theorem C4_tempfile_counterexample :
    SQL_update_object_tracking_data_with_battery_voltage "uuid" true true
        true true =
      ⟨ErrorCode.E_API_PROTOCOL_FORMAT, true, false⟩ := by
  decide

/-- C4 (amended): the temporary tracking CSV is removed exactly on the
outcomes that reach the COPY attempt — success and `E_SQL_EXECUTE`; on a
parser failure (`E_API_PROTOCOL_FORMAT`) and on a connection-acquisition
failure (`E_SQL_OPEN_DATABASE`) the function returns with the file created
but not removed. -/
theorem C4_tempfile_removed_only_after_copy (buf : String)
    (fopen_ok panic_conn_ok copy_conn_ok copy_exec_ok : Bool) :
    ((SQL_update_object_tracking_data_with_battery_voltage buf fopen_ok
        panic_conn_ok copy_conn_ok copy_exec_ok).file_removed = true ↔
      ((SQL_update_object_tracking_data_with_battery_voltage buf fopen_ok
          panic_conn_ok copy_conn_ok copy_exec_ok).ret_val =
        ErrorCode.WORK_SUCCESSFULLY ∨
       (SQL_update_object_tracking_data_with_battery_voltage buf fopen_ok
          panic_conn_ok copy_conn_ok copy_exec_ok).ret_val =
        ErrorCode.E_SQL_EXECUTE)) ∧
    ((SQL_update_object_tracking_data_with_battery_voltage buf fopen_ok
        panic_conn_ok copy_conn_ok copy_exec_ok).ret_val =
        ErrorCode.E_API_PROTOCOL_FORMAT →
      (SQL_update_object_tracking_data_with_battery_voltage buf fopen_ok
        panic_conn_ok copy_conn_ok copy_exec_ok).file_created = true ∧
      (SQL_update_object_tracking_data_with_battery_voltage buf fopen_ok
        panic_conn_ok copy_conn_ok copy_exec_ok).file_removed = false) ∧
    ((SQL_update_object_tracking_data_with_battery_voltage buf fopen_ok
        panic_conn_ok copy_conn_ok copy_exec_ok).ret_val =
        ErrorCode.E_SQL_OPEN_DATABASE →
      (SQL_update_object_tracking_data_with_battery_voltage buf fopen_ok
        panic_conn_ok copy_conn_ok copy_exec_ok).file_created = true ∧
      (SQL_update_object_tracking_data_with_battery_voltage buf fopen_ok
        panic_conn_ok copy_conn_ok copy_exec_ok).file_removed = false) := by
  rcases track_result_cases buf fopen_ok panic_conn_ok copy_conn_ok
      copy_exec_ok with h | h | h | h | h <;>
    rw [h] <;>
    exact ⟨by simp, by simp, by simp⟩

theorem C4_tempfile_witness :
    (SQL_update_object_tracking_data_with_battery_voltage "uuid" true true
      true true).file_created = true ∧
    (SQL_update_object_tracking_data_with_battery_voltage "uuid" true true
      true true).file_removed = false :=
  (C4_tempfile_removed_only_after_copy "uuid" true true true true).2.1
    (by decide)

/-- The pool and heap operations of the UDP branch of the receiver loop
`process_api_recv` (Geo-Fencing.c:224-253). -/
inductive RecvAction where
  | alloc_pkt_content
  | submit_job
  | mp_free_pkt_content
  | free_tmp_addr
  deriving DecidableEq, Repr

/-- Embedding of the UDP branch of `process_api_recv`
(Geo-Fencing.c:224-253): allocate a `pkt_content` slot from the packet
memory pool (line 228), fill it, wait out backpressure (lines 242-245),
submit the job to the worker pool (`thpool_add_work`, lines 247-250; the
result is stored into `return_value` and never read), and free the
temporary address string (line 252).  The list is the sequence of pool and
heap operations performed for one packet. -/
def process_api_recv_udp (submit_ok : Bool) : List RecvAction :=
  [RecvAction.alloc_pkt_content, RecvAction.submit_job,
   RecvAction.free_tmp_addr]

theorem C9_recv_counterexample :
    RecvAction.mp_free_pkt_content ∉ process_api_recv_udp false := by
  decide

/-- C9 (amended): the receiver loop performs the same operations whether
the submission succeeds or fails — the return value of `thpool_add_work`
is ignored — and in particular it never returns the allocated
`packet_content` slot to the memory pool; a failed submission leaks the
slot. -/
theorem C9_recv_ignores_submission_result :
    ∀ submit_ok : Bool,
      process_api_recv_udp submit_ok =
        [RecvAction.alloc_pkt_content, RecvAction.submit_job,
         RecvAction.free_tmp_addr] ∧
      process_api_recv_udp submit_ok = process_api_recv_udp true ∧
      RecvAction.mp_free_pkt_content ∉ process_api_recv_udp submit_ok := by
  decide

theorem C9_recv_witness :
    process_api_recv_udp false =
      [RecvAction.alloc_pkt_content, RecvAction.submit_job,
       RecvAction.free_tmp_addr] :=
  (C9_recv_ignores_submission_result false).1
